import Mathlib

/-
Formal model of the path_planner repository: the Executive planning-loop
driver (src/path_planner/src/executive/executive.cpp) and the anytime
A* planner (AStarPlanner::plan). Real-valued quantities of the C++ code
are modelled as rationals; collaborator classes that live outside the
repository sources (Dubins geometry, ribbon coverage geometry, edge cost
integration) are abstracted as explicit function parameters or modelled
from the specification where noted.
-/

namespace PathPlanner

/-- A vehicle state, as in the State class: position, heading, speed, time. -/
structure State where
  x : ℚ
  y : ℚ
  heading : ℚ
  speed : ℚ
  time : ℚ
deriving DecidableEq, Repr

/-- Modelled from the spec: State.push(dt) yields the state reached by
straight-line motion at the current speed and heading for dt seconds.
The trigonometric direction of travel for a heading is abstracted by the
parameter dir, which maps a heading to its unit direction components. -/
def State.push (dir : ℚ → ℚ × ℚ) (s : State) (dt : ℚ) : State :=
  { s with
    x := s.x + s.speed * dt * (dir s.heading).1
    y := s.y + s.speed * dt * (dir s.heading).2
    time := s.time + dt }

/-- Modelled from the spec: a default-constructed State carries the sentinel
time -1, which the planning loop tests with startState.time() == -1. -/
def State.sentinel : State := ⟨0, 0, 0, 0, -1⟩

/-- Modelled from the spec: equality of states for the co-located check uses
exact coordinate match. -/
def State.isCoLocated (a b : State) : Bool :=
  a.x == b.x && a.y == b.y

/-- The planner state machine of the Executive. -/
inductive PlannerState where
  | Inactive
  | Running
  | Cancelled
deriving DecidableEq, Repr

/-- Executive::cancelPlanner: set the state to Cancelled only when it is
currently Running (executive.cpp lines 278-282). -/
def cancelPlanner (s : PlannerState) : PlannerState :=
  if s = PlannerState.Running then PlannerState.Cancelled else s

/-- The slice of Executive state read and written by updateCovered, with the
ribbon manager abstracted to a type alpha (its cover operation is a collaborator
outside the repository sources). -/
structure ExecCovState (α : Type) where
  lastHeading : ℚ
  lastUpdateTime : ℚ
  lastState : State
  ribbonManager : α

/-- Executive::updateCovered (executive.cpp lines 32-40): cover (x, y) when
(m_LastHeading - heading) / m_LastUpdateTime <= c_CoverageHeadingRateMax,
then record heading, time and pose. The gate is checked before the recorded
fields are overwritten, exactly as in the source. -/
def updateCovered {α : Type} (cmax : ℚ) (cover : α → ℚ → ℚ → α)
    (e : ExecCovState α) (x y speed heading t : ℚ) : ExecCovState α :=
  let rm :=
    if (e.lastHeading - heading) / e.lastUpdateTime ≤ cmax then
      cover e.ribbonManager x y
    else
      e.ribbonManager
  { lastHeading := heading
    lastUpdateTime := t
    lastState := ⟨x, y, heading, speed, t⟩
    ribbonManager := rm }

/-- A concrete two-call scenario for updateCovered: the ribbon manager is a
counter and cover increments it, so coverage applications are observable.
First call at heading 0, time 10. -/
def c1First (cmax : ℚ) : ExecCovState ℕ :=
  updateCovered cmax (fun n _ _ => n + 1) ⟨0, 0, State.sentinel, 0⟩ 0 0 1 0 10

/-- Second call of the scenario, at heading cmax + 1 and time 11, so the
observed heading rate between the two calls is cmax + 1. -/
def c1Second (cmax : ℚ) : ExecCovState ℕ :=
  updateCovered cmax (fun n _ _ => n + 1) (c1First cmax) 1 1 1 (cmax + 1) 11

/-- When the gate condition of updateCovered holds, the cover operation is
applied to the ribbon manager. -/
theorem updateCovered_covers {α : Type} (cmax : ℚ) (cover : α → ℚ → ℚ → α)
    (e : ExecCovState α) (x y speed heading t : ℚ)
    (h : (e.lastHeading - heading) / e.lastUpdateTime ≤ cmax) :
    (updateCovered cmax cover e x y speed heading t).ribbonManager
      = cover e.ribbonManager x y := by
  simp [updateCovered, h]

/-- Claim C1: between the two calls the observed heading rate exceeds
c_CoverageHeadingRateMax, yet the second updateCovered call still applies
coverage (the counter modelling the ribbon manager advances). The source
divides the signed heading difference by the previous absolute timestamp
rather than by the time between the calls, so the gate the claim describes
is not what the code computes. -/
theorem c1_code_bug (cmax : ℚ) (hc : 0 ≤ cmax) :
    (cmax + 1 - 0) / (11 - 10) > cmax
      ∧ (c1Second cmax).ribbonManager = (c1First cmax).ribbonManager + 1 := by
  have hLH : (c1First cmax).lastHeading = 0 := rfl
  have hLT : (c1First cmax).lastUpdateTime = 10 := rfl
  have h2 : ((c1First cmax).lastHeading - (cmax + 1)) / (c1First cmax).lastUpdateTime
      ≤ cmax := by
    rw [hLH, hLT, div_le_iff₀ (by norm_num : (0 : ℚ) < 10)]
    linarith
  constructor
  · norm_num
  · rw [c1Second,
      updateCovered_covers cmax (fun n _ _ => n + 1) (c1First cmax) 1 1 1 (cmax + 1) 11 h2]

/-- Witness for C1 at cmax = 1. -/
theorem c1_code_bug_witness :
    (0 : ℚ) ≤ 1
      ∧ ((1 : ℚ) + 1 - 0) / (11 - 10) > 1
      ∧ (c1Second 1).ribbonManager = (c1First 1).ribbonManager + 1 :=
  ⟨by norm_num, c1_code_bug 1 (by norm_num)⟩

/-- The start-state synthesis step of Executive::planLoop (executive.cpp
lines 98-101): when the previous startState carries the sentinel time -1,
replace it by m_LastState pushed forward by
getTime() + c_PlanningTimeSeconds - m_LastState.time(). -/
def synthStartState (dir : ℚ → ℚ × ℚ) (planningTime now : ℚ)
    (startState lastState : State) : State :=
  if startState.time = -1 then
    lastState.push dir (now + planningTime - lastState.time)
  else
    startState

/-- Claim C2 (amended): when the previous startState is the sentinel, the loop
pushes m_LastState forward by exactly (now - lastStateTime) + P seconds, so
the synthesized start state sits at time now + P. -/
theorem c2_thm (dir : ℚ → ℚ × ℚ) (planningTime now : ℚ)
    (startState lastState : State) (h : startState.time = -1) :
    synthStartState dir planningTime now startState lastState
        = lastState.push dir ((now - lastState.time) + planningTime)
      ∧ (synthStartState dir planningTime now startState lastState).time
        = now + planningTime := by
  have harg : now + planningTime - lastState.time
      = (now - lastState.time) + planningTime := by ring
  constructor
  · rw [synthStartState, if_pos h, harg]
  · rw [synthStartState, if_pos h]
    show lastState.time + (now + planningTime - lastState.time) = now + planningTime
    ring

/-- Witness for C2: the amended formula evaluated at P = 1, now = 7 and a last
state at time 5. -/
theorem c2_thm_witness :
    State.sentinel.time = -1
      ∧ synthStartState (fun _ => (1, 0)) 1 7 State.sentinel ⟨0, 0, 0, 1, 5⟩
          = State.push (fun _ => (1, 0)) ⟨0, 0, 0, 1, 5⟩ ((7 - 5) + 1)
      ∧ (synthStartState (fun _ => (1, 0)) 1 7 State.sentinel ⟨0, 0, 0, 1, 5⟩).time
          = 7 + 1 :=
  ⟨rfl, (c2_thm (fun _ => (1, 0)) 1 7 State.sentinel ⟨0, 0, 0, 1, 5⟩ rfl).1,
    (c2_thm (fun _ => (1, 0)) 1 7 State.sentinel ⟨0, 0, 0, 1, 5⟩ rfl).2⟩

/-- Counterexample to C2 as stated: with P = 1, now = 7 and a last state at
time 5, the code does not push m_LastState by P - (now - lastStateTime); it
pushes by now + P - lastStateTime, which lands at time 8 rather than 4. -/
theorem c2_counterexample :
    synthStartState (fun _ => (1, 0)) 1 7 State.sentinel ⟨0, 0, 0, 1, 5⟩
      ≠ State.push (fun _ => (1, 0)) ⟨0, 0, 0, 1, 5⟩ (1 - (7 - 5)) := by
  intro hEq
  have h := congrArg State.time hEq
  norm_num [synthStartState, State.push, State.sentinel] at h

/-- One segment of a Dubins plan: the state it ends at and its true cost. The
Dubins curve geometry itself is a collaborator outside the repository sources. -/
structure PlanSeg where
  endState : State
  cost : ℚ
deriving DecidableEq, Repr

/-- A DubinsPlan is an ordered sequence of segments; empty() is emptiness of
that sequence. -/
abbrev DubinsPlan := List PlanSeg

/-- The slice of planLoop state touched by the post-publication step. -/
structure LoopPubState where
  plan : DubinsPlan
  startState : State
  turningRadius : ℚ
  coverageTurningRadius : ℚ
  radiusShrink : ℚ
deriving DecidableEq, Repr

/-- The tail of one planLoop iteration (executive.cpp lines 148-187): when the
plan is non-empty, publish it, receive the committed start state, sample the
plan at that state to get the expected start state, and either reset (plan
emptied, radius shrink rolled back when the experiment is enabled) on
divergence, or advance the shrink accounting when co-located. When the plan is
empty, the start state is reset to the sentinel. The collaborator
DubinsPlan::sample is abstracted by the parameter sample; the state returned
by publishPlan is the parameter published. -/
def publishStep (sample : DubinsPlan → State → State) (published : State)
    (shrinkEnabled : Bool) (shrinkAmount : ℚ) (ls : LoopPubState) : LoopPubState :=
  if ls.plan.isEmpty then
    { ls with startState := State.sentinel }
  else
    let startState := published
    let expected := sample ls.plan startState
    if !(State.isCoLocated startState expected) then
      if shrinkEnabled then
        { plan := []
          startState := startState
          turningRadius := ls.turningRadius + ls.radiusShrink
          coverageTurningRadius := ls.coverageTurningRadius + ls.radiusShrink
          radiusShrink := 0 }
      else
        { ls with plan := [], startState := startState }
    else
      { ls with startState := startState, radiusShrink := ls.radiusShrink + shrinkAmount }

/-- Claim C3: on a non-empty plan, if the committed start state is not
co-located with the sampled expected start state, the plan carried to the next
iteration is empty and, with radius shrink enabled, the cumulative shrink is
zeroed and both turning radii are restored by adding it back; if co-located,
the shrink accounting is advanced instead and the plan is kept. -/
theorem c3_thm (sample : DubinsPlan → State → State) (published : State)
    (shrinkAmount : ℚ) (se : Bool) (ls : LoopPubState) (hne : ls.plan ≠ []) :
    (State.isCoLocated published (sample ls.plan published) = false →
        (publishStep sample published se shrinkAmount ls).plan = []
        ∧ (publishStep sample published true shrinkAmount ls).radiusShrink = 0
        ∧ (publishStep sample published true shrinkAmount ls).turningRadius
            = ls.turningRadius + ls.radiusShrink
        ∧ (publishStep sample published true shrinkAmount ls).coverageTurningRadius
            = ls.coverageTurningRadius + ls.radiusShrink)
    ∧ (State.isCoLocated published (sample ls.plan published) = true →
        (publishStep sample published se shrinkAmount ls).radiusShrink
            = ls.radiusShrink + shrinkAmount
        ∧ (publishStep sample published se shrinkAmount ls).plan = ls.plan) := by
  have hempty : ls.plan.isEmpty = false := by
    cases h : ls.plan.isEmpty
    · rfl
    · exact absurd (List.isEmpty_iff.mp h) hne
  constructor
  · intro hco
    cases se <;> refine ⟨?_, ?_, ?_, ?_⟩ <;> simp [publishStep, hempty, hco]
  · intro hco
    constructor <;> simp [publishStep, hempty, hco]

/-- Witness for C3: a diverged publication with shrink enabled resets the plan
and the shrink accounting, and a co-located publication advances it. -/
theorem c3_witness :
    ((publishStep (fun _ _ => ⟨1, 1, 0, 0, 0⟩) ⟨0, 0, 0, 0, 0⟩ true 1
        ⟨[⟨State.sentinel, 0⟩], State.sentinel, 8, 8, 2⟩).plan = []
      ∧ (publishStep (fun _ _ => ⟨1, 1, 0, 0, 0⟩) ⟨0, 0, 0, 0, 0⟩ true 1
        ⟨[⟨State.sentinel, 0⟩], State.sentinel, 8, 8, 2⟩).radiusShrink = 0
      ∧ (publishStep (fun _ _ => ⟨1, 1, 0, 0, 0⟩) ⟨0, 0, 0, 0, 0⟩ true 1
        ⟨[⟨State.sentinel, 0⟩], State.sentinel, 8, 8, 2⟩).turningRadius = 8 + 2
      ∧ (publishStep (fun _ _ => ⟨1, 1, 0, 0, 0⟩) ⟨0, 0, 0, 0, 0⟩ true 1
        ⟨[⟨State.sentinel, 0⟩], State.sentinel, 8, 8, 2⟩).coverageTurningRadius = 8 + 2)
    ∧ (publishStep (fun _ s => s) ⟨0, 0, 0, 0, 0⟩ true 1
        ⟨[⟨State.sentinel, 0⟩], State.sentinel, 8, 8, 2⟩).radiusShrink = 2 + 1 :=
  ⟨(c3_thm (fun _ _ => ⟨1, 1, 0, 0, 0⟩) ⟨0, 0, 0, 0, 0⟩ 1 true
      ⟨[⟨State.sentinel, 0⟩], State.sentinel, 8, 8, 2⟩ (by simp)).1
      (by simp [State.isCoLocated]),
    ((c3_thm (fun _ s => s) ⟨0, 0, 0, 0, 0⟩ 1 true
      ⟨[⟨State.sentinel, 0⟩], State.sentinel, 8, 8, 2⟩ (by simp)).2
      (by simp [State.isCoLocated])).1⟩

/-- The possible outcomes of the planner->plan call inside the try block of
planLoop: a returned plan, a thrown std::exception, or an exception of
unknown type. -/
inductive PlanOutcome where
  | ok (p : DubinsPlan)
  | stdExc (msg : String)
  | unknownExc

/-- The observable result of the guarded planner call: the planner state after
the handlers ran, the value of the plan variable, whether the exception was
rethrown out of the loop, and the lines logged. -/
structure PlanCallResult where
  plannerState : PlannerState
  plan : DubinsPlan
  rethrown : Bool
  logLines : List String

/-- The try/catch around planner->plan in planLoop (executive.cpp lines
114-137): a std::exception is logged and answered with cancelPlanner; an
unknown exception is logged, cancelPlanner is called, and it is rethrown. -/
def handlePlanCall (st : PlannerState) (cur : DubinsPlan) :
    PlanOutcome → PlanCallResult
  | PlanOutcome.ok p => ⟨st, p, false, []⟩
  | PlanOutcome.stdExc msg =>
      ⟨cancelPlanner st, cur, false,
        ["Exception thrown while planning:", msg, "Pausing."]⟩
  | PlanOutcome.unknownExc =>
      ⟨cancelPlanner st, cur, true,
        ["Unknown exception thrown while planning; pausing"]⟩

/-- The cancellation check at the top of each planLoop iteration (executive.cpp
lines 66-72): the loop exits when the planner state is Cancelled. -/
def cancelCheckExits (st : PlannerState) : Bool :=
  st == PlannerState.Cancelled

/-- Claim C7: while the loop runs (state Running, or Cancelled already), a
std::exception from plan is caught, logged and answered by cancelPlanner, so
the next iteration of the loop exits at its cancellation check; an unknown
exception is rethrown after cancelPlanner. -/
theorem c7_thm (st : PlannerState) (cur : DubinsPlan) (msg : String)
    (h : st = PlannerState.Running ∨ st = PlannerState.Cancelled) :
    ((handlePlanCall st cur (PlanOutcome.stdExc msg)).plannerState
        = PlannerState.Cancelled
      ∧ (handlePlanCall st cur (PlanOutcome.stdExc msg)).rethrown = false
      ∧ (handlePlanCall st cur (PlanOutcome.stdExc msg)).logLines ≠ []
      ∧ cancelCheckExits
          (handlePlanCall st cur (PlanOutcome.stdExc msg)).plannerState = true)
    ∧ ((handlePlanCall st cur PlanOutcome.unknownExc).plannerState
        = PlannerState.Cancelled
      ∧ (handlePlanCall st cur PlanOutcome.unknownExc).rethrown = true
      ∧ cancelCheckExits
          (handlePlanCall st cur PlanOutcome.unknownExc).plannerState = true) := by
  rcases h with h | h <;> subst h <;>
    simp [handlePlanCall, cancelPlanner, cancelCheckExits]

/-- Witness for C7 with the loop in the Running state. -/
theorem c7_witness :
    (handlePlanCall PlannerState.Running [] (PlanOutcome.stdExc "x")).plannerState
        = PlannerState.Cancelled
      ∧ (handlePlanCall PlannerState.Running [] PlanOutcome.unknownExc).rethrown
        = true :=
  ⟨(c7_thm PlannerState.Running [] "x" (Or.inl rfl)).1.1,
    (c7_thm PlannerState.Running [] "x" (Or.inl rfl)).2.2.1⟩

/-- Char-list comparison: the first list is an initial run of the second. -/
def leadsWith : List Char → List Char → Bool
  | [], _ => true
  | _ :: _, [] => false
  | a :: as, b :: bs => a == b && leadsWith as bs

/-- Char-list containment, modelling std::string::find(needle) != npos. -/
def containsSeq (needle : List Char) : List Char → Bool
  | [] => leadsWith needle []
  | c :: cs => leadsWith needle (c :: cs) || containsSeq needle cs

/-- The two map file formats the loader can construct. -/
inductive MapFormat where
  | geoTiff
  | gridWorld
deriving DecidableEq, Repr

/-- The format choice of the refreshMap loader (executive.cpp line 213):
pathToMapFile.find(".map") == -1 selects GeoTIFF, anything containing the
substring ".map" selects the grid-world text format. -/
def chooseFormat (path : String) : MapFormat :=
  if containsSeq ".map".toList path.toList then MapFormat.gridWorld
  else MapFormat.geoTiff

/-- The map staging state shared with the loader task: the staged new map
(represented by the format it was loaded with) and the current map path. -/
structure MapLoadState where
  newMap : Option MapFormat
  currentMapPath : String
deriving DecidableEq, Repr

/-- The body of the detached loader task of Executive::refreshMap
(executive.cpp lines 207-227). The Bool parameter says whether constructing
the map throws; the returned Bool reports whether the error message was
logged. On a throw the error is swallowed, m_NewMap is nulled and the current
path cleared. -/
def refreshMapTask (loadThrows : Bool) (path : String) (ms : MapLoadState) :
    MapLoadState × Bool :=
  if ms.currentMapPath = path then (ms, false)
  else if loadThrows then (⟨none, ""⟩, true)
  else (⟨some (chooseFormat path), path⟩, false)

/-- The selection rule as the claim states it: the extension of the path is
".map", that is, the path ends with ".map". -/
def extensionIsMap (path : String) : Bool :=
  leadsWith ".map".toList.reverse path.toList.reverse

/-- Counterexample to C8 as stated: the path "a.mapx" does not have extension
".map", yet the loader picks the grid-world format for it, because the code
only tests substring containment of ".map". -/
theorem c8_counterexample :
    chooseFormat "a.mapx" = MapFormat.gridWorld
      ∧ extensionIsMap "a.mapx" = false
      ∧ (refreshMapTask false "a.mapx" ⟨none, ""⟩).1.newMap
        = some MapFormat.gridWorld := by
  decide

/-- Claim C8 (amended): for a path different from the current map path, the
loader chooses the grid-world format exactly when the path contains the
substring ".map" (GeoTIFF otherwise) and stages the loaded map; if loading
throws, the error is swallowed in the loader task, the message is logged and
m_NewMap is left null. -/
theorem c8_thm (path : String) (ms : MapLoadState) (h : ms.currentMapPath ≠ path) :
    ((refreshMapTask false path ms).1.newMap = some (chooseFormat path)
      ∧ (refreshMapTask false path ms).1.currentMapPath = path
      ∧ (chooseFormat path = MapFormat.gridWorld
          ↔ containsSeq ".map".toList path.toList = true))
    ∧ ((refreshMapTask true path ms).1.newMap = none
      ∧ (refreshMapTask true path ms).2 = true) := by
  refine ⟨⟨?_, ?_, ?_⟩, ?_, ?_⟩
  · simp [refreshMapTask, h]
  · simp [refreshMapTask, h]
  · rw [chooseFormat]
    split
    · next hcond => exact iff_of_true rfl hcond
    · next hcond => exact iff_of_false (by decide) hcond
  · simp [refreshMapTask, h]
  · simp [refreshMapTask, h]

/-- Witness for C8 at a GeoTIFF path with no map staged yet. -/
theorem c8_thm_witness :
    (refreshMapTask false "chart.tif" ⟨none, ""⟩).1.newMap
        = some (chooseFormat "chart.tif")
      ∧ (refreshMapTask true "chart.tif" ⟨none, ""⟩).1.newMap = none :=
  ⟨(c8_thm "chart.tif" ⟨none, ""⟩ (by decide)).1.1,
    (c8_thm "chart.tif" ⟨none, ""⟩ (by decide)).2.1⟩

/-- Claim C9: cancelPlanner moves Running to Cancelled and leaves Inactive and
Cancelled unchanged. -/
theorem c9_thm :
    cancelPlanner PlannerState.Running = PlannerState.Cancelled
      ∧ cancelPlanner PlannerState.Inactive = PlannerState.Inactive
      ∧ cancelPlanner PlannerState.Cancelled = PlannerState.Cancelled := by
  decide

/-- A vertex of the search tree during one plan() call: the root built by
Vertex::makeRoot, or a child built by Vertex::connect carrying its end state,
the true cost computed for its parent edge, the infeasibility flag of that
edge, and its f value. -/
inductive Vtx where
  | root (s : State) (f : ℚ)
  | child (parent : Vtx) (s : State) (trueCost : ℚ) (infeasible : Bool) (f : ℚ)
deriving DecidableEq, Repr

/-- The f value of a vertex. -/
def Vtx.f : Vtx → ℚ
  | Vtx.root _ f => f
  | Vtx.child _ _ _ _ f => f

/-- What Edge::computeTrueCost produces for one connection: the true cost, the
infeasibility flag and the updated f of the destination vertex. The cost
integration itself is a collaborator outside the repository sources, so it is
abstracted as a function Vtx -> PlanSeg -> EdgeCost. -/
structure EdgeCost where
  trueCost : ℚ
  infeasible : Bool
  f : ℚ
deriving DecidableEq, Repr

/-- The previous-plan reconnection loop of AStarPlanner::plan (part_000 lines
124-135): chain the segments of the previous plan from the current vertex,
compute each true cost, and on the first infeasible edge fall back to startV
and stop. -/
def reconnectChain (costOf : Vtx → PlanSeg → EdgeCost) (startV : Vtx) :
    Vtx → List PlanSeg → Vtx
  | cur, [] => cur
  | cur, p :: rest =>
    if (costOf cur p).infeasible then startV
    else
      reconnectChain costOf startV
        (Vtx.child cur p.endState (costOf cur p).trueCost (costOf cur p).infeasible
          (costOf cur p).f) rest

/-- The full chain of vertices the reconnection would build if every edge were
accepted, with the true costs recorded edge by edge. -/
def chainFrom (costOf : Vtx → PlanSeg → EdgeCost) : Vtx → List PlanSeg → Vtx
  | cur, [] => cur
  | cur, p :: rest =>
    chainFrom costOf
      (Vtx.child cur p.endState (costOf cur p).trueCost (costOf cur p).infeasible
        (costOf cur p).f) rest

/-- Whether every edge of the reconnected chain is feasible. -/
def chainFeasible (costOf : Vtx → PlanSeg → EdgeCost) : Vtx → List PlanSeg → Bool
  | _, [] => true
  | cur, p :: rest =>
    !(costOf cur p).infeasible
      && chainFeasible costOf
        (Vtx.child cur p.endState (costOf cur p).trueCost (costOf cur p).infeasible
          (costOf cur p).f) rest

/-- The reconnection loop agrees with the full chain when every edge is
feasible and falls back to startV otherwise, for any continuation vertex. -/
theorem reconnectChain_spec (costOf : Vtx → PlanSeg → EdgeCost) (startV : Vtx)
    (prev : List PlanSeg) :
    ∀ cur : Vtx,
      (chainFeasible costOf cur prev = true →
        reconnectChain costOf startV cur prev = chainFrom costOf cur prev)
      ∧ (chainFeasible costOf cur prev = false →
        reconnectChain costOf startV cur prev = startV) := by
  induction prev with
  | nil =>
      intro cur
      exact ⟨fun _ => rfl, fun hf => by simp [chainFeasible] at hf⟩
  | cons p rest ih =>
      intro cur
      cases hx : (costOf cur p).infeasible
      · constructor
        · intro hfeas
          rw [chainFeasible, hx] at hfeas
          simp only [Bool.not_false, Bool.true_and] at hfeas
          rw [reconnectChain, chainFrom, hx]
          simp only [Bool.false_eq_true, if_false]
          exact (ih _).1 hfeas
        · intro hfail
          rw [chainFeasible, hx] at hfail
          simp only [Bool.not_false, Bool.true_and] at hfail
          rw [reconnectChain, hx]
          simp only [Bool.false_eq_true, if_false]
          exact (ih _).2 hfail
      · constructor
        · intro hfeas
          rw [chainFeasible, hx] at hfeas
          simp at hfeas
        · intro hfail
          rw [reconnectChain, hx]
          simp

/-- Claim C5: for a call of AStarPlanner::plan, lastPlanEnd is the last vertex
of the chain re-connecting the previous plan from the root when every edge is
feasible, and is the root vertex startV otherwise; the chain carries the true
costs computed edge by edge. -/
theorem c5_thm (costOf : Vtx → PlanSeg → EdgeCost) (startV : Vtx)
    (prev : DubinsPlan) :
    (chainFeasible costOf startV prev = true →
      reconnectChain costOf startV startV prev = chainFrom costOf startV prev)
    ∧ (chainFeasible costOf startV prev = false →
      reconnectChain costOf startV startV prev = startV) :=
  reconnectChain_spec costOf startV prev startV

/-- Witness for C5: a fully feasible two-segment previous plan is reconnected
to its chain end, and a plan whose second edge is infeasible falls back to the
root. -/
theorem c5_thm_witness :
    reconnectChain (fun _ p => ⟨p.cost, false, 0⟩) (Vtx.root State.sentinel 5)
        (Vtx.root State.sentinel 5) [⟨⟨1, 0, 0, 1, 1⟩, 2⟩, ⟨⟨2, 0, 0, 1, 2⟩, 3⟩]
      = chainFrom (fun _ p => ⟨p.cost, false, 0⟩) (Vtx.root State.sentinel 5)
        [⟨⟨1, 0, 0, 1, 1⟩, 2⟩, ⟨⟨2, 0, 0, 1, 2⟩, 3⟩]
    ∧ reconnectChain (fun _ p => ⟨p.cost, decide (p.cost = 3), 0⟩)
        (Vtx.root State.sentinel 5) (Vtx.root State.sentinel 5)
        [⟨⟨1, 0, 0, 1, 1⟩, 2⟩, ⟨⟨2, 0, 0, 1, 2⟩, 3⟩]
      = Vtx.root State.sentinel 5 :=
  ⟨(c5_thm (fun _ p => ⟨p.cost, false, 0⟩) (Vtx.root State.sentinel 5)
      [⟨⟨1, 0, 0, 1, 1⟩, 2⟩, ⟨⟨2, 0, 0, 1, 2⟩, 3⟩]).1 (by decide),
    (c5_thm (fun _ p => ⟨p.cost, decide (p.cost = 3), 0⟩) (Vtx.root State.sentinel 5)
      [⟨⟨1, 0, 0, 1, 1⟩, 2⟩, ⟨⟨2, 0, 0, 1, 2⟩, 3⟩]).2 (by decide)⟩

/-- The mutable state of the outer anytime loop of AStarPlanner::plan: the
vertex queue, m_BestVertex, the sample pool size and m_IterationCount. -/
structure OuterState where
  queue : List Vtx
  bestVertex : Option Vtx
  sampleCount : ℕ
  iterationCount : ℕ
deriving DecidableEq, Repr

/-- The collaborators and ambient data of the outer loop: the clock read at
the top of each iteration (indexed by m_IterationCount), the deadline, the
root vertex, the reconnected lastPlanEnd, whether the coverage turning radius
is positive, the vertices pushed for the two ribbon sample sets, the
c_InitialSamples constant, the pool growth of addSamples, and the inner
aStar run returning its result vertex and the queue it leaves behind. -/
structure OuterEnv where
  now : ℕ → ℚ
  endTime : ℚ
  startV : Vtx
  lastPlanEnd : Vtx
  covRadiusPos : Bool
  ribbonPush : List Vtx
  otherRibbonPush : List Vtx
  initialSamples : ℕ
  addedSamples : ℕ → ℕ
  aStarRun : OuterState → Option Vtx × List Vtx

/-- The break condition checked after clearing the queue (part_000 line 139):
m_BestVertex is set and its f does not exceed the f of startV. -/
def bestBeatsStart (env : OuterEnv) : Option Vtx → Bool
  | none => false
  | some bv => decide (bv.f ≤ env.startV.f)

/-- One body of the outer loop after the break check (part_000 lines 143-159):
push startV, push lastPlanEnd when distinct, push the expansions toward the
two ribbon sample sets when the coverage turning radius is positive, grow the
sample pool (c_InitialSamples on the first iteration, linear growth after),
run the inner aStar, and keep the better of its result and m_BestVertex. -/
def outerLoopBody (env : OuterEnv) (s : OuterState) : OuterState :=
  let q1 := s.queue ++ [env.startV]
  let q2 := if env.lastPlanEnd = env.startV then q1 else q1 ++ [env.lastPlanEnd]
  let q3 := if env.covRadiusPos then q2 ++ env.ribbonPush ++ env.otherRibbonPush else q2
  let samples :=
    if s.sampleCount < env.initialSamples then s.sampleCount + env.initialSamples
    else s.sampleCount + env.addedSamples s.sampleCount
  let run := env.aStarRun { s with queue := q3, sampleCount := samples }
  let best :=
    match s.bestVertex, run.1 with
    | none, v => v
    | some bv, none => some bv
    | some bv, some v => if v.f < bv.f then some v else some bv
  { queue := run.2
    bestVertex := best
    sampleCount := samples
    iterationCount := s.iterationCount + 1 }

/-- The outer anytime loop of AStarPlanner::plan (part_000 lines 137-160):
while the clock is before the deadline, clear the vertex queue, break when the
best vertex already beats the root, and otherwise run the body. Fuel bounds
the number of iterations; the C++ loop is bounded by the monotone clock
reaching the deadline. -/
def outerLoop (env : OuterEnv) : ℕ → OuterState → OuterState
  | 0, s => s
  | fuel + 1, s =>
    if env.now s.iterationCount < env.endTime then
      if bestBeatsStart env s.bestVertex then { s with queue := [] }
      else outerLoop env fuel (outerLoopBody env { s with queue := [] })
    else s

/-- Claim C4: if at the top of an outer-loop iteration m_BestVertex is set and
its f is at most the f of startV, the loop terminates at once: the state is
returned with only the queue cleared, so no further queue pushes, sample
additions or inner aStar runs happen in that call, whatever the collaborators
do. -/
theorem c4_thm (env : OuterEnv) (fuel : ℕ) (s : OuterState) (bv : Vtx)
    (ht : env.now s.iterationCount < env.endTime)
    (hb : s.bestVertex = some bv) (hf : bv.f ≤ env.startV.f) :
    outerLoop env (fuel + 1) s = { s with queue := [] } := by
  have hbb : bestBeatsStart env s.bestVertex = true := by
    rw [hb, bestBeatsStart]
    exact decide_eq_true hf
  rw [outerLoop, if_pos ht, if_pos hbb]

/-- A concrete environment for the C4 witness. -/
def c4Env : OuterEnv :=
  { now := fun _ => 0
    endTime := 1
    startV := Vtx.root State.sentinel 5
    lastPlanEnd := Vtx.root State.sentinel 5
    covRadiusPos := true
    ribbonPush := []
    otherRibbonPush := []
    initialSamples := 1
    addedSamples := fun n => n
    aStarRun := fun st => (none, st.queue) }

/-- A concrete loop state for the C4 witness with a best vertex of f 3. -/
def c4S : OuterState := ⟨[Vtx.root State.sentinel 5], some (Vtx.root State.sentinel 3), 2, 0⟩

/-- Witness for C4. -/
theorem c4_thm_witness : outerLoop c4Env (0 + 1) c4S = { c4S with queue := [] } :=
  c4_thm c4Env 0 c4S (Vtx.root State.sentinel 3)
    (by norm_num [c4Env, c4S]) rfl (by norm_num [Vtx.f, c4Env])

/-- Modelled from the spec: tracePlan emits the DubinsPlan strictly following
the best vertex parent chain back to the root, one segment per edge. -/
def tracePlan : Vtx → DubinsPlan
  | Vtx.root _ _ => []
  | Vtx.child p s c _ _ => tracePlan p ++ [⟨s, c⟩]

/-- The result extraction at the end of AStarPlanner::plan (part_000 lines
164-169): an empty plan when m_BestVertex is null, the traced-back plan
otherwise. -/
def planFromBest : Option Vtx → DubinsPlan
  | none => []
  | some v => tracePlan v

/-- The initial loop state of a plan() call: empty queue, no best vertex,
cleared sample pool, iteration count zero (part_000 lines 106-120). -/
def initialOuterState : OuterState := ⟨[], none, 0, 0⟩

/-- AStarPlanner::plan assembled from its stages: reconnect the previous plan
to fix lastPlanEnd, run the outer loop from the initial state until the time
budget runs out, then extract the result from m_BestVertex. -/
def aStarPlanFull (env : OuterEnv) (costOf : Vtx → PlanSeg → EdgeCost)
    (prev : DubinsPlan) (fuel : ℕ) : DubinsPlan :=
  planFromBest
    (outerLoop
      { env with lastPlanEnd := reconnectChain costOf env.startV env.startV prev }
      fuel initialOuterState).bestVertex

/-- Claim C6: when the outer loop ends with m_BestVertex null, plan returns
the empty DubinsPlan; otherwise it returns the plan traced back from
m_BestVertex to the root. -/
theorem c6_thm (env : OuterEnv) (costOf : Vtx → PlanSeg → EdgeCost)
    (prev : DubinsPlan) (fuel : ℕ) :
    ((outerLoop
        { env with lastPlanEnd := reconnectChain costOf env.startV env.startV prev }
        fuel initialOuterState).bestVertex = none →
      aStarPlanFull env costOf prev fuel = [])
    ∧ (∀ v, (outerLoop
        { env with lastPlanEnd := reconnectChain costOf env.startV env.startV prev }
        fuel initialOuterState).bestVertex = some v →
      aStarPlanFull env costOf prev fuel = tracePlan v) := by
  constructor
  · intro h
    simp only [aStarPlanFull]
    rw [h]
    rfl
  · intro v h
    simp only [aStarPlanFull]
    rw [h]
    rfl

/-- The cost collaborator for the C6 witness. -/
def c6CostOf : Vtx → PlanSeg → EdgeCost := fun _ p => ⟨p.cost, false, 0⟩

/-- The vertex the inner aStar returns in the C6 witness environment. -/
def c6Vb : Vtx := Vtx.root State.sentinel 3

/-- A concrete environment for the C6 witness whose inner aStar always reports
c6Vb. -/
def c6Env : OuterEnv :=
  { now := fun _ => 0
    endTime := 1
    startV := Vtx.root State.sentinel 5
    lastPlanEnd := Vtx.root State.sentinel 5
    covRadiusPos := false
    ribbonPush := []
    otherRibbonPush := []
    initialSamples := 1
    addedSamples := fun n => n
    aStarRun := fun st => (some c6Vb, st.queue) }

/-- Witness for C6: with no fuel the loop keeps m_BestVertex null and the plan
is empty; with one iteration the best vertex is c6Vb and its trace is
returned. -/
theorem c6_thm_witness :
    aStarPlanFull c6Env c6CostOf [] 0 = []
      ∧ aStarPlanFull c6Env c6CostOf [] 1 = tracePlan c6Vb :=
  ⟨(c6_thm c6Env c6CostOf [] 0).1 rfl,
    (c6_thm c6Env c6CostOf [] 1).2 c6Vb (by decide)⟩

/-- The selectable ribbon heuristics of RibbonManager. -/
inductive Heuristic where
  | MaxDistance
  | TspPointRobotNoSplitAllRibbons
  | TspPointRobotNoSplitKRibbons
  | TspDubinsNoSplitAllRibbons
  | TspDubinsNoSplitKRibbons
deriving DecidableEq, Repr

/-- A ribbon as added from endpoints. -/
structure Ribbon where
  x1 : ℚ
  y1 : ℚ
  x2 : ℚ
  y2 : ℚ
deriving DecidableEq, Repr

/-- Modelled from the spec: a RibbonManager holds the collection of uncovered
ribbons together with the chosen heuristic; the constructor takes the
heuristic, the turning radius used by the Dubins heuristics and the K of the
KRibbons heuristics, and a freshly constructed manager holds no ribbons. -/
structure RibbonManagerM where
  heuristic : Heuristic
  turningRadius : ℚ
  k : ℕ
  ribbons : List Ribbon
deriving DecidableEq, Repr

/-- The RibbonManager constructor used by Executive::clearRibbons. -/
def RibbonManagerM.make (h : Heuristic) (r : ℚ) (k : ℕ) : RibbonManagerM :=
  ⟨h, r, k, []⟩

/-- RibbonManager::setHeuristic. -/
def RibbonManagerM.setHeuristic (rm : RibbonManagerM) (h : Heuristic) :
    RibbonManagerM :=
  { rm with heuristic := h }

/-- The slice of Executive state touched by setConfiguration and clearRibbons:
the live ribbon manager, the planner config scalars and the process-wide
ribbon width. -/
structure ExecCfgState where
  ribbonManager : RibbonManagerM
  cfgTurningRadius : ℚ
  cfgCoverageTurningRadius : ℚ
  cfgMaxSpeed : ℚ
  cfgBranchingFactor : ℤ
  ribbonWidth : ℚ
deriving DecidableEq, Repr

/-- Executive::setConfiguration (executive.cpp lines 253-269): store the
scalar configuration, set the ribbon width, and select the ribbon heuristic
for ids 0 to 4; unknown ids are logged and ignored. -/
def setConfiguration (e : ExecCfgState) (turningRadius coverageTurningRadius
    maxSpeed lineWidth : ℚ) (k : ℤ) (heuristic : ℤ) : ExecCfgState :=
  let e1 := { e with
    cfgMaxSpeed := maxSpeed
    cfgTurningRadius := turningRadius
    cfgCoverageTurningRadius := coverageTurningRadius
    ribbonWidth := lineWidth
    cfgBranchingFactor := k }
  if heuristic = 0 then
    { e1 with ribbonManager := e1.ribbonManager.setHeuristic Heuristic.MaxDistance }
  else if heuristic = 1 then
    { e1 with ribbonManager :=
        e1.ribbonManager.setHeuristic Heuristic.TspPointRobotNoSplitAllRibbons }
  else if heuristic = 2 then
    { e1 with ribbonManager :=
        e1.ribbonManager.setHeuristic Heuristic.TspPointRobotNoSplitKRibbons }
  else if heuristic = 3 then
    { e1 with ribbonManager :=
        e1.ribbonManager.setHeuristic Heuristic.TspDubinsNoSplitAllRibbons }
  else if heuristic = 4 then
    { e1 with ribbonManager :=
        e1.ribbonManager.setHeuristic Heuristic.TspDubinsNoSplitKRibbons }
  else e1

/-- Executive::clearRibbons (executive.cpp lines 248-251): replace the live
RibbonManager with a freshly constructed one using the
TspPointRobotNoSplitKRibbons heuristic, the configured turning radius and
K = 2. -/
def clearRibbons (e : ExecCfgState) : ExecCfgState :=
  { e with ribbonManager :=
      RibbonManagerM.make Heuristic.TspPointRobotNoSplitKRibbons e.cfgTurningRadius 2 }

/-- Claim C10: clearRibbons installs a freshly constructed RibbonManager whose
heuristic is TspPointRobotNoSplitKRibbons and whose ribbon collection is
empty, and it does so whatever heuristic a prior setConfiguration call had
selected. -/
theorem c10_thm (e : ExecCfgState) (tr ctr ms lw : ℚ) (k hid : ℤ) :
    (clearRibbons e).ribbonManager
        = RibbonManagerM.make Heuristic.TspPointRobotNoSplitKRibbons
            e.cfgTurningRadius 2
      ∧ (clearRibbons e).ribbonManager.heuristic
        = Heuristic.TspPointRobotNoSplitKRibbons
      ∧ (clearRibbons e).ribbonManager.ribbons = []
      ∧ (clearRibbons (setConfiguration e tr ctr ms lw k hid)).ribbonManager.heuristic
        = Heuristic.TspPointRobotNoSplitKRibbons :=
  ⟨rfl, rfl, rfl, rfl⟩

end PathPlanner
